import Mathlib

/-!
Shallow embedding of `src/data_download.py` (class `RedditLoader`) and proofs of the
spec claims about it.

Records produced by the two batch fetchers are Python 3-lists
`[name, title, selftext-or-comment-body]`; they are embedded as the structure `Rec`
whose first field `name` corresponds to Python index `0`.  Network responses are
supplied as explicit arguments (an oracle), so each function is a pure function of
the responses the upstream would return; the requests a function issues are returned
as an explicit `Request` trace, and `print` calls are returned as a `log` of strings
(the exact printed text is abstracted, only presence/absence of lines is modelled).
-/

namespace SadGPT

/-- One flattened record `[name, title, body]` as built at
`data_download.py:98` (posts: body = selftext) and `data_download.py:150`
(comments: body = comment text).  Python index `0` is the field `name`. -/
structure Rec where
  name : String
  title : String
  body : String
deriving DecidableEq

/-- Outcome of one call to the mode-selected batch fetcher inside the
`while True:` loop of `get_all_data` (`data_download.py:187`): either the
list of records the fetcher returned, or an exception raised by the fetch. -/
inductive FetchResult
  | ok (batch : List Rec)
  | err
deriving DecidableEq

/-- The `self.headers` dict built in `__init__` (`data_download.py:32-33`). -/
structure Headers where
  userAgent : String
  authorization : String
deriving DecidableEq

/-- The state of a `RedditLoader` instance: `self.config` (the parsed credential
json, modelled as an association list) and `self.headers`. -/
structure RedditLoader where
  config : List (String × String)
  headers : Headers
deriving DecidableEq

/-- An outbound HTTP request, for counting/tracing purposes. -/
inductive Request
  | tokenPost
  | mePing
  | listing (before : Option String)
  | commentTree (postId : String)
deriving DecidableEq

/-- A pandas DataFrame as produced by `make_dataframe`: column names plus rows. -/
structure DataFrame where
  columns : List String
  rows : List Rec
deriving DecidableEq

/-- `RedditLoader.make_dataframe` (`data_download.py:222-229`).  `Except.error`
models the `raise Exception('Invalid type')` branch. -/
def make_dataframe (type : String) (data : List Rec) : Except String DataFrame :=
  if type == "post" then Except.ok ⟨["name", "title", "text"], data⟩
  else if type == "comment" then Except.ok ⟨["name", "title", "comment"], data⟩
  else Except.error "Invalid type"

/-- `get_token` (`data_download.py:39-62`): the token-exchange response body is
an association list; `res.json()['access_token']` succeeds iff the key is
present, otherwise `Exception('Invalid credentials')` is raised. -/
def get_token (tokenRes : List (String × String)) : Except String String :=
  match tokenRes.lookup "access_token" with
  | some tok => Except.ok tok
  | none => Except.error "Invalid credentials"

/-- `__init__` (`data_download.py:29-36`): loads `config`, builds the headers
dict, calls `get_token` (one token POST), and on success pings the identity
endpoint (printing on HTTP 200).  Returns the constructed loader (or the
propagated auth exception), the trace of requests issued, and the printed log. -/
def init (config : List (String × String)) (tokenRes : List (String × String))
    (meStatus : Nat) : Except String RedditLoader × List Request × List String :=
  match get_token tokenRes with
  | Except.error e => (Except.error e, [Request.tokenPost], ["invalid token response"])
  | Except.ok tok =>
      (Except.ok ⟨config, ⟨"MyBot/0.0.1", "bearer " ++ tok⟩⟩,
       [Request.tokenPost, Request.mePing],
       if meStatus == 200 then ["Success authenticated"] else [])

/-- One child of a listing response (`raw_data['data']['children'][i]['data']`),
with the fields the code reads: `name`, `title`, `id`, `selftext`. -/
structure PostChild where
  name : String
  title : String
  id : String
  selftext : String
deriving DecidableEq

/-- A listing response: `raw_data['data']['children']`. -/
structure Listing where
  children : List PostChild
deriving DecidableEq

/-- One child of a per-post comment-tree response
(`raw_comments[1]['data']['children'][i]`): `body?` is `some b` when the
child's `data` dict has a `'body'` key with value `b`, `none` otherwise
(e.g. "load more" placeholder nodes). -/
structure CommentItem where
  body? : Option String
deriving DecidableEq

/-- The `for post in raw_data['data']['children']` loop of
`get_single_batch_post_from_reddit` (`data_download.py:96-98`), appending one
record per child to the accumulator `data`. -/
def postsLoop : List PostChild → List Rec → List Rec
  | [], data => data
  | post :: rest, data => postsLoop rest (data ++ [⟨post.name, post.title, post.selftext⟩])

/-- `get_single_batch_post_from_reddit` (`data_download.py:65-101`): one GET on
the listing endpoint (with the current cursor), then one record per child.
Returns `(records, requests issued)` and the loader state after the call. -/
def get_single_batch_post_from_reddit (self : RedditLoader)
    (subreddit sort_by : String) (limit : Nat) (before : Option String)
    (res : Listing) : (List Rec × List Request) × RedditLoader :=
  ((postsLoop res.children [], [Request.listing before]), self)

/-- The inner `for comment in raw_comments[1]['data']['children']` loop
(`data_download.py:148-150`): appends `[post_name, post_title, body]` for each
comment item whose data carries a `'body'` field, skipping the others. -/
def commentInner (post_name post_title : String) : List CommentItem → List Rec → List Rec
  | [], data => data
  | c :: rest, data =>
    match c.body? with
    | some b => commentInner post_name post_title rest (data ++ [⟨post_name, post_title, b⟩])
    | none => commentInner post_name post_title rest data

/-- The outer `for post in raw_data['data']['children']` loop of
`get_single_batch_post_comment_from_reddit` (`data_download.py:135-150`): for
each post, one GET on the comment-tree endpoint, then the inner comment loop.
`comments` maps a post id to the children of that post's comment response. -/
def commentLoop (comments : String → List CommentItem) :
    List PostChild → List Rec → List Request → List Rec × List Request
  | [], data, reqs => (data, reqs)
  | post :: rest, data, reqs =>
    let raw := comments post.id
    commentLoop comments rest (commentInner post.name post.title raw data)
      (reqs ++ [Request.commentTree post.id])

/-- `get_single_batch_post_comment_from_reddit` (`data_download.py:103-151`):
one GET on the `top` listing endpoint, then the per-post fan-out loop.
Returns `(records, requests issued)` and the loader state after the call. -/
def get_single_batch_post_comment_from_reddit (self : RedditLoader)
    (subreddit sort_by : String) (limit : Nat) (before : Option String)
    (res : Listing) (comments : String → List CommentItem) :
    (List Rec × List Request) × RedditLoader :=
  (commentLoop comments res.children [] [Request.listing before], self)

/-- Result of the `while True:` loop of `get_all_data`: the accumulator `data`,
the sequence of `before` cursors actually passed to the fetches that were
issued (in order), the printed log lines, and the loader state after the loop. -/
structure CrawlOut where
  data : List Rec
  cursors : List (Option String)
  log : List String
  self : RedditLoader
deriving DecidableEq

/-- The `while True:` loop of `get_all_data` (`data_download.py:185-198`),
with the responses of the mode-selected fetcher supplied in order by `oracle`
(when `oracle` is exhausted the model stops and returns the state so far).
Per iteration: fetch (consuming one oracle entry; an `err` entry is a raised
exception, caught at line 196: print and break); append the batch; update
`before := data[-1][0]` (an `IndexError` on an empty accumulator is likewise
caught: print and break); optional verbose print; break when the size check
`len(data) == data_size` fires; else continue with `data_size = len(data)`. -/
def crawlLoop (self : RedditLoader) (verbose : Bool) (batch : Nat)
    (oracle : List FetchResult) (data : List Rec) (before : Option String)
    (dataSize : Nat) : CrawlOut :=
  match oracle with
  | [] => ⟨data, [], [], self⟩
  | FetchResult.err :: _ => ⟨data, [before], ["fetch error"], self⟩
  | FetchResult.ok b :: rest =>
    let data' := data ++ b
    match data'.getLast? with
    | none => ⟨data', [before], ["list index out of range"], self⟩
    | some lastRec =>
      let log1 := if verbose then
          ["Batch " ++ toString (batch + 1) ++ " complete, loaded " ++
            toString data'.length ++ " posts."]
        else []
      if data'.length == dataSize then
        ⟨data', [before], log1, self⟩
      else
        let out := crawlLoop self verbose (if verbose then batch + 1 else batch)
          rest data' (some lastRec.name) data'.length
        ⟨out.data, before :: out.cursors, log1 ++ out.log, out.self⟩

/-- The body of `get_all_data` after mode validation (`data_download.py:179-200`):
run the loop from an empty accumulator, cursor `None`, `data_size = 0`, then
`make_dataframe(type, data)`. -/
def runCrawl (self : RedditLoader) (type : String) (verbose : Bool)
    (oracle : List FetchResult) :
    Except String (DataFrame × List (Option String) × List String) × RedditLoader :=
  let log0 := if verbose then ["Getting data..."] else []
  let out := crawlLoop self verbose 0 oracle [] none 0
  match make_dataframe type out.data with
  | Except.ok df => (Except.ok (df, out.cursors, log0 ++ out.log), out.self)
  | Except.error e => (Except.error e, out.self)

/-- `get_all_data` (`data_download.py:153-200`): the `if/elif/else` chain selects
the fetcher for a valid mode (the oracle abstracts that fetcher's responses) or
raises `Exception('Invalid type')` before the loop starts.  The `Except.ok`
payload carries the DataFrame plus the observed cursor trace and log. -/
def get_all_data (self : RedditLoader) (type subreddit sort_by : String)
    (verbose : Bool) (oracle : List FetchResult) :
    Except String (DataFrame × List (Option String) × List String) × RedditLoader :=
  if type == "post" then runCrawl self type verbose oracle
  else if type == "comment" then runCrawl self type verbose oracle
  else (Except.error "Invalid type", self)

/-! ### Spec-side definitions (written from the claims' words, for comparison) -/

/-- From C1's words: the records expected in the accumulator — all records of
each fetched batch up to (and including, contributing nothing) the first empty
batch or first raising fetch; nothing from or after a raising fetch. -/
def expectedRecords : List FetchResult → List Rec
  | [] => []
  | FetchResult.err :: _ => []
  | FetchResult.ok b :: rest => if b.isEmpty then [] else b ++ expectedRecords rest

/-- From C1's words: the sum of the sizes of the fetched batches up to and
including the first empty batch or first raising fetch. -/
def expectedSize : List FetchResult → Nat
  | [] => 0
  | FetchResult.err :: _ => 0
  | FetchResult.ok b :: rest => if b.isEmpty then b.length else b.length + expectedSize rest

/-- From C2's words: the cursors a crawl starting at cursor `c` is expected to
use — the first fetch uses `c`, and each later fetch uses the name (first
field) of the last record of the previous fetch's batch; the crawl stops
fetching after an error, an empty first batch, or a batch that adds nothing. -/
def specCursors : List FetchResult → Option String → List (Option String)
  | [], _ => []
  | FetchResult.err :: _, c => [c]
  | FetchResult.ok b :: rest, c =>
    match b.getLast?.map Rec.name with
    | none => [c]
    | some n => c :: specCursors rest (some n)

/-- The top-level identifiers (first fields) of every record in every
successful batch of the response sequence, in order. -/
def allNames : List FetchResult → List String
  | [] => []
  | FetchResult.err :: rest => allNames rest
  | FetchResult.ok b :: rest => b.map Rec.name ++ allNames rest

/-! ### Lemmas about the crawl loop -/

/-- With `data_size` equal to the current accumulator length (the loop's
invariant), the loop's final accumulator is the initial one followed by
`expectedRecords` of the response sequence. -/
theorem crawlLoop_data_eq (oracle : List FetchResult) (self : RedditLoader)
    (verbose : Bool) (bt : Nat) (data : List Rec) (before : Option String) :
    (crawlLoop self verbose bt oracle data before data.length).data =
      data ++ expectedRecords oracle := by
  induction oracle generalizing self bt data before with
  | nil => simp [crawlLoop, expectedRecords]
  | cons r rest ih =>
    cases r with
    | err => simp [crawlLoop, expectedRecords]
    | ok b =>
      cases b with
      | nil =>
        cases data with
        | nil => simp [crawlLoop, expectedRecords]
        | cons d ds =>
          simp [crawlLoop, expectedRecords]
          split <;> rfl
      | cons r0 bs =>
        have hcond : ((data ++ r0 :: bs).length == data.length) = false := by
          simp [List.length_append]
        rcases hgl : (data ++ r0 :: bs).getLast? with _ | L
        · rw [List.getLast?_eq_none_iff] at hgl
          simp at hgl
        · simp only [crawlLoop, hgl, hcond]
          have := ih self (if verbose then bt + 1 else bt) (data ++ r0 :: bs) (some L.name)
          simp only [this]
          simp [expectedRecords]

/-- With `data_size` equal to the current accumulator length, the cursors the
loop passes to its fetches are exactly `specCursors` of the response sequence. -/
theorem crawlLoop_cursors_eq (oracle : List FetchResult) (self : RedditLoader)
    (verbose : Bool) (bt : Nat) (data : List Rec) (before : Option String) :
    (crawlLoop self verbose bt oracle data before data.length).cursors =
      specCursors oracle before := by
  induction oracle generalizing self bt data before with
  | nil => simp [crawlLoop, specCursors]
  | cons r rest ih =>
    cases r with
    | err => simp [crawlLoop, specCursors]
    | ok b =>
      cases b with
      | nil =>
        cases data with
        | nil => simp [crawlLoop, specCursors]
        | cons d ds =>
          simp [crawlLoop, specCursors]
          split <;> rfl
      | cons r0 bs =>
        have hcond : ((data ++ r0 :: bs).length == data.length) = false := by
          simp [List.length_append]
        rcases hb : (r0 :: bs).getLast? with _ | L
        · rw [List.getLast?_eq_none_iff] at hb
          simp at hb
        · have hgl : (data ++ r0 :: bs).getLast? = some L := by
            rw [List.getLast?_append, hb]
            rfl
          simp only [crawlLoop, hgl, hcond]
          have := ih self (if verbose then bt + 1 else bt) (data ++ r0 :: bs) (some L.name)
          simp only [this]
          simp [specCursors, hb]

/-- The loop never changes the loader state (`self.headers`, `self.config`). -/
theorem crawlLoop_self_eq (oracle : List FetchResult) (self : RedditLoader)
    (verbose : Bool) (bt : Nat) (data : List Rec) (before : Option String)
    (dataSize : Nat) :
    (crawlLoop self verbose bt oracle data before dataSize).self = self := by
  induction oracle generalizing self bt data before dataSize with
  | nil => simp [crawlLoop]
  | cons r rest ih =>
    cases r with
    | err => simp [crawlLoop]
    | ok b =>
      simp only [crawlLoop]
      split
      · rfl
      · split
        · rfl
        · simp [ih]

/-- `expectedRecords` and `expectedSize` agree. -/
theorem expectedRecords_length (oracle : List FetchResult) :
    (expectedRecords oracle).length = expectedSize oracle := by
  induction oracle with
  | nil => simp [expectedRecords, expectedSize]
  | cons r rest ih =>
    cases r with
    | err => simp [expectedRecords, expectedSize]
    | ok b =>
      cases b with
      | nil => simp [expectedRecords, expectedSize]
      | cons r0 bs =>
        simp [expectedRecords, expectedSize, ih]
        omega

/-- On a response sequence of nonempty batches followed by an error, the
expected records are exactly the concatenation of those batches. -/
theorem expectedRecords_batches (batches : List (List Rec)) (rest : List FetchResult)
    (h : ∀ b ∈ batches, b ≠ []) :
    expectedRecords (batches.map FetchResult.ok ++ FetchResult.err :: rest) =
      batches.flatten := by
  induction batches with
  | nil => simp [expectedRecords]
  | cons b bs ih =>
    have hb : b ≠ [] := h b (by simp)
    have hbs : ∀ x ∈ bs, x ≠ [] := fun x hx => h x (by simp [hx])
    cases b with
    | nil => exact absurd rfl hb
    | cons r0 rs => simp [expectedRecords, ih hbs]

/-- `specCursors` is either empty or starts with the initial cursor. -/
theorem specCursors_cons (oracle : List FetchResult) (c : Option String) :
    specCursors oracle c = [] ∨ ∃ t, specCursors oracle c = c :: t := by
  cases oracle with
  | nil => exact Or.inl rfl
  | cons r rest =>
    cases r with
    | err => exact Or.inr ⟨[], rfl⟩
    | ok b =>
      rcases hb : b.getLast?.map Rec.name with _ | n
      · exact Or.inr ⟨[], by simp [specCursors, hb]⟩
      · exact Or.inr ⟨specCursors rest (some n), by simp [specCursors, hb]⟩

/-- Each non-initial cursor is the `name` (first field) of the last record of
the batch returned by the previous fetch. -/
theorem specCursors_get (oracle : List FetchResult) (c : Option String) (i : Nat)
    (h : i + 1 < (specCursors oracle c).length) :
    ∃ b L, oracle[i]? = some (FetchResult.ok b) ∧ b.getLast? = some L ∧
      (specCursors oracle c)[i + 1]? = some (some L.name) := by
  induction oracle generalizing c i with
  | nil => simp [specCursors] at h
  | cons r rest ih =>
    cases r with
    | err => simp [specCursors] at h
    | ok b =>
      rcases hb : b.getLast? with _ | L
      · simp [specCursors, hb] at h
      · have hsc : specCursors (FetchResult.ok b :: rest) c =
            c :: specCursors rest (some L.name) := by
          simp [specCursors, hb]
        rw [hsc] at h ⊢
        cases i with
        | zero =>
          refine ⟨b, L, by simp, hb, ?_⟩
          simp only [List.length_cons] at h
          rcases specCursors_cons rest (some L.name) with he | ⟨t, ht⟩
          · rw [he] at h
            simp at h
          · simp [ht]
        | succ j =>
          simp only [List.length_cons] at h
          obtain ⟨b', L', h1, h2, h3⟩ := ih (some L.name) j (by omega)
          refine ⟨b', L', by simpa using h1, h2, by simpa using h3⟩

/-- A record reported by `getLast?` is a member of the list. -/
theorem mem_of_getLast?_eq (b : List Rec) (L : Rec) (hb : b.getLast? = some L) :
    L ∈ b := by
  have hmem : L ∈ b.getLast? := Option.mem_def.mpr hb
  obtain ⟨hne, hL⟩ := List.mem_getLast?_eq_getLast hmem
  rw [hL]
  exact List.getLast_mem hne

/-- Shape of `specCursors`: empty, or the initial cursor followed by `some` of
a subsequence of the names occurring in the successful batches. -/
theorem specCursors_shape (oracle : List FetchResult) (c : Option String) :
    specCursors oracle c = [] ∨
      ∃ l : List String, specCursors oracle c = c :: l.map some ∧
        l.Sublist (allNames oracle) := by
  induction oracle generalizing c with
  | nil => exact Or.inl rfl
  | cons r rest ih =>
    cases r with
    | err =>
      refine Or.inr ⟨[], rfl, ?_⟩
      simp only [allNames]
      exact List.nil_sublist _
    | ok b =>
      rcases hb : b.getLast? with _ | L
      · refine Or.inr ⟨[], by simp [specCursors, hb], ?_⟩
        simp only [allNames]
        exact List.nil_sublist _
      · have hmem : L.name ∈ b.map Rec.name :=
          List.mem_map_of_mem _ (mem_of_getLast?_eq b L hb)
        rcases ih (some L.name) with he | ⟨l, hl, hsub⟩
        · refine Or.inr ⟨[], by simp [specCursors, hb, he], ?_⟩
          simp only [allNames]
          exact List.nil_sublist _
        · refine Or.inr ⟨L.name :: l, by simp [specCursors, hb, hl], ?_⟩
          simp only [allNames]
          have := List.Sublist.append (List.singleton_sublist.mpr hmem) hsub
          simpa using this

/-- If all record names in the successful batches are pairwise distinct, a
crawl starting from cursor `None` never uses the same cursor twice. -/
theorem specCursors_nodup (oracle : List FetchResult)
    (h : (allNames oracle).Nodup) : (specCursors oracle none).Nodup := by
  rcases specCursors_shape oracle none with he | ⟨l, hl, hsub⟩
  · rw [he]
    exact List.nodup_nil
  · rw [hl]
    refine List.nodup_cons.mpr ⟨?_, ?_⟩
    · simp
    · exact (hsub.nodup h).map (Option.some_injective _)

/-- The inner comment loop appends exactly one record per comment item that
carries a body, in response order. -/
theorem commentInner_eq (pn pt : String) (cs : List CommentItem) (data : List Rec) :
    commentInner pn pt cs data =
      data ++ cs.filterMap (fun c => c.body?.map (fun b => (⟨pn, pt, b⟩ : Rec))) := by
  induction cs generalizing data with
  | nil => simp [commentInner]
  | cons c rest ih =>
    cases hc : c.body? with
    | none => simp [commentInner, hc, ih]
    | some b => simp [commentInner, hc, ih]

/-- The outer comment loop issues one comment-tree request per post and emits
the per-post records in order. -/
theorem commentLoop_eq (comments : String → List CommentItem) (posts : List PostChild)
    (data : List Rec) (reqs : List Request) :
    commentLoop comments posts data reqs =
      (data ++ posts.flatMap (fun p => (comments p.id).filterMap
          (fun c => c.body?.map (fun b => (⟨p.name, p.title, b⟩ : Rec)))),
       reqs ++ posts.map (fun p => Request.commentTree p.id)) := by
  induction posts generalizing data reqs with
  | nil => simp [commentLoop]
  | cons p rest ih => simp [commentLoop, ih, commentInner_eq]

/-- For a mode whose `make_dataframe` succeeds with fixed columns, the crawl
body returns the expected records, the expected cursors, and the input state. -/
theorem runCrawl_spec (self : RedditLoader) (type : String) (v : Bool)
    (oracle : List FetchResult) (cols : List String)
    (hmk : ∀ d, make_dataframe type d = Except.ok ⟨cols, d⟩) :
    ∃ log, (runCrawl self type v oracle).1 =
        Except.ok (⟨cols, expectedRecords oracle⟩, specCursors oracle none, log) ∧
      (runCrawl self type v oracle).2 = self := by
  have hd : (crawlLoop self v 0 oracle [] none 0).data = expectedRecords oracle := by
    simpa using crawlLoop_data_eq oracle self v 0 [] none
  have hc : (crawlLoop self v 0 oracle [] none 0).cursors = specCursors oracle none := by
    simpa using crawlLoop_cursors_eq oracle self v 0 [] none
  have hs : (crawlLoop self v 0 oracle [] none 0).self = self :=
    crawlLoop_self_eq oracle self v 0 [] none 0
  refine ⟨(if v then ["Getting data..."] else []) ++
      (crawlLoop self v 0 oracle [] none 0).log, ?_, ?_⟩
  · simp only [runCrawl, hd, hc, hmk]
  · simp only [runCrawl, hd, hmk, hs]

/-- For a valid mode, `get_all_data` is the crawl body. -/
theorem get_all_data_valid_eq (self : RedditLoader) (type subreddit sort_by : String)
    (verbose : Bool) (oracle : List FetchResult)
    (h : type = "post" ∨ type = "comment") :
    get_all_data self type subreddit sort_by verbose oracle =
      runCrawl self type verbose oracle := by
  rcases h with h | h <;> subst h <;> rfl

/-! ### Claim theorems -/

/-- C1: for every sequence of pages returned by the upstream fetch function,
the final size of the accumulator returned by `get_all_data` equals the sum of
the sizes of the fetched batches up to and including the first empty batch or
the first batch whose fetch raises, with no records counted from or after a
raising fetch. -/
theorem get_all_data_size (self : RedditLoader) (type subreddit sort_by : String)
    (verbose : Bool) (oracle : List FetchResult)
    (h : type = "post" ∨ type = "comment") :
    ∃ df cursors log,
      (get_all_data self type subreddit sort_by verbose oracle).1 =
        Except.ok (df, cursors, log) ∧
      df.rows.length = expectedSize oracle := by
  rw [get_all_data_valid_eq self type subreddit sort_by verbose oracle h]
  rcases h with h | h <;> subst h
  · obtain ⟨log, h1, _⟩ := runCrawl_spec self "post" verbose oracle
      ["name", "title", "text"] (fun d => rfl)
    exact ⟨_, _, log, h1, expectedRecords_length oracle⟩
  · obtain ⟨log, h1, _⟩ := runCrawl_spec self "comment" verbose oracle
      ["name", "title", "comment"] (fun d => rfl)
    exact ⟨_, _, log, h1, expectedRecords_length oracle⟩

/-- Witness for C1: a concrete crawl (one batch of one record, then a fetch
error) whose final accumulator size is the expected sum. -/
theorem get_all_data_size_witness :
    ∃ df cursors log,
      (get_all_data ⟨[], ⟨"MyBot/0.0.1", "bearer t"⟩⟩ "post" "askreddit" "new" false
          [FetchResult.ok [⟨"a", "t1", "x"⟩], FetchResult.err]).1 =
        Except.ok (df, cursors, log) ∧
      df.rows.length = expectedSize [FetchResult.ok [⟨"a", "t1", "x"⟩], FetchResult.err] :=
  get_all_data_size ⟨[], ⟨"MyBot/0.0.1", "bearer t"⟩⟩ "post" "askreddit" "new" false
    [FetchResult.ok [⟨"a", "t1", "x"⟩], FetchResult.err] (Or.inl rfl)

/-- C2 (counterexample): a crawl CAN issue two fetches under the same cursor
value: if the second batch's last record repeats the top-level identifier "a"
of the first batch's last record, the second and third fetches are both issued
under cursor "a". -/
theorem get_all_data_cursor_reuse_cex :
    (get_all_data ⟨[], ⟨"MyBot/0.0.1", "bearer t"⟩⟩ "post" "askreddit" "top" false
        [FetchResult.ok [⟨"a", "t1", "x"⟩],
          FetchResult.ok [⟨"b", "t2", "y"⟩, ⟨"a", "t3", "z"⟩],
          FetchResult.ok []]).1 =
      Except.ok (⟨["name", "title", "text"],
          [⟨"a", "t1", "x"⟩, ⟨"b", "t2", "y"⟩, ⟨"a", "t3", "z"⟩]⟩,
        [none, some "a", some "a"], []) ∧
    ¬ ([none, some "a", some "a"] : List (Option String)).Nodup :=
  ⟨rfl, by decide⟩

/-- C2 (amended): the cursor passed to fetch `i+1` equals the top-level
identifier (first field) of the last record of the batch returned by fetch `i`
(which is the last record appended during fetch `i`); and provided the
top-level identifiers of all fetched records are pairwise distinct, the crawl
never issues two fetches under the same cursor value. -/
theorem get_all_data_cursors (self : RedditLoader) (type subreddit sort_by : String)
    (verbose : Bool) (oracle : List FetchResult)
    (h : type = "post" ∨ type = "comment") :
    ∃ df cursors log,
      (get_all_data self type subreddit sort_by verbose oracle).1 =
        Except.ok (df, cursors, log) ∧
      (∀ i, i + 1 < cursors.length →
        ∃ b L, oracle[i]? = some (FetchResult.ok b) ∧ b.getLast? = some L ∧
          cursors[i + 1]? = some (some L.name)) ∧
      ((allNames oracle).Nodup → cursors.Nodup) := by
  rw [get_all_data_valid_eq self type subreddit sort_by verbose oracle h]
  rcases h with h | h <;> subst h
  · obtain ⟨log, h1, _⟩ := runCrawl_spec self "post" verbose oracle
      ["name", "title", "text"] (fun d => rfl)
    exact ⟨_, _, log, h1, fun i hi => specCursors_get oracle none i hi,
      fun hn => specCursors_nodup oracle hn⟩
  · obtain ⟨log, h1, _⟩ := runCrawl_spec self "comment" verbose oracle
      ["name", "title", "comment"] (fun d => rfl)
    exact ⟨_, _, log, h1, fun i hi => specCursors_get oracle none i hi,
      fun hn => specCursors_nodup oracle hn⟩

/-- Witness for C2 (amended): a concrete crawl with distinct record names. -/
theorem get_all_data_cursors_witness :
    ∃ df cursors log,
      (get_all_data ⟨[], ⟨"MyBot/0.0.1", "bearer t"⟩⟩ "post" "askreddit" "top" false
          [FetchResult.ok [⟨"a", "t1", "x"⟩], FetchResult.ok []]).1 =
        Except.ok (df, cursors, log) ∧
      (∀ i, i + 1 < cursors.length →
        ∃ b L, [FetchResult.ok [⟨"a", "t1", "x"⟩], FetchResult.ok []][i]? =
            some (FetchResult.ok b) ∧ b.getLast? = some L ∧
          cursors[i + 1]? = some (some L.name)) ∧
      ((allNames [FetchResult.ok [⟨"a", "t1", "x"⟩], FetchResult.ok []]).Nodup →
        cursors.Nodup) :=
  get_all_data_cursors ⟨[], ⟨"MyBot/0.0.1", "bearer t"⟩⟩ "post" "askreddit" "top" false
    [FetchResult.ok [⟨"a", "t1", "x"⟩], FetchResult.ok []] (Or.inl rfl)

/-- C3: if a batch fetch raises any error, `get_all_data` catches it, does not
re-raise, and returns a table containing exactly the records accumulated by
the successful fetches before the failing one; hence `get_all_data` never
raises once the loop has started (it always returns `Except.ok` for a valid
mode, whatever the response sequence). -/
theorem get_all_data_catches_errors (self : RedditLoader)
    (type subreddit sort_by : String) (verbose : Bool) (oracle : List FetchResult)
    (batches : List (List Rec)) (rest : List FetchResult)
    (h : type = "post" ∨ type = "comment") (hb : ∀ b ∈ batches, b ≠ []) :
    (∃ out, (get_all_data self type subreddit sort_by verbose oracle).1 =
      Except.ok out) ∧
    ∃ df cursors log,
      (get_all_data self type subreddit sort_by verbose
          (batches.map FetchResult.ok ++ FetchResult.err :: rest)).1 =
        Except.ok (df, cursors, log) ∧
      df.rows = batches.flatten := by
  constructor
  · rw [get_all_data_valid_eq self type subreddit sort_by verbose oracle h]
    rcases h with h | h <;> subst h
    · obtain ⟨log, h1, _⟩ := runCrawl_spec self "post" verbose oracle
        ["name", "title", "text"] (fun d => rfl)
      exact ⟨_, h1⟩
    · obtain ⟨log, h1, _⟩ := runCrawl_spec self "comment" verbose oracle
        ["name", "title", "comment"] (fun d => rfl)
      exact ⟨_, h1⟩
  · rw [get_all_data_valid_eq self type subreddit sort_by verbose
      (batches.map FetchResult.ok ++ FetchResult.err :: rest) h]
    rcases h with h | h <;> subst h
    · obtain ⟨log, h1, _⟩ := runCrawl_spec self "post" verbose
        (batches.map FetchResult.ok ++ FetchResult.err :: rest)
        ["name", "title", "text"] (fun d => rfl)
      refine ⟨_, _, log, h1, ?_⟩
      simpa using expectedRecords_batches batches rest hb
    · obtain ⟨log, h1, _⟩ := runCrawl_spec self "comment" verbose
        (batches.map FetchResult.ok ++ FetchResult.err :: rest)
        ["name", "title", "comment"] (fun d => rfl)
      refine ⟨_, _, log, h1, ?_⟩
      simpa using expectedRecords_batches batches rest hb

/-- Witness for C3: two nonempty batches followed by a fetch error; the table
holds exactly those two batches' records. -/
theorem get_all_data_catches_errors_witness :
    (∃ out, (get_all_data ⟨[], ⟨"MyBot/0.0.1", "bearer t"⟩⟩ "post" "r" "new" false
        [FetchResult.err]).1 = Except.ok out) ∧
    ∃ df cursors log,
      (get_all_data ⟨[], ⟨"MyBot/0.0.1", "bearer t"⟩⟩ "post" "r" "new" false
          ([[(⟨"a", "t1", "x"⟩ : Rec)], [⟨"b", "t2", "y"⟩]].map FetchResult.ok ++
            FetchResult.err :: [])).1 =
        Except.ok (df, cursors, log) ∧
      df.rows = [[(⟨"a", "t1", "x"⟩ : Rec)], [⟨"b", "t2", "y"⟩]].flatten :=
  get_all_data_catches_errors ⟨[], ⟨"MyBot/0.0.1", "bearer t"⟩⟩ "post" "r" "new" false
    [FetchResult.err] [[⟨"a", "t1", "x"⟩], [⟨"b", "t2", "y"⟩]] [] (Or.inl rfl)
    (by decide)

/-- C4: for every page of `N` posts returned by the listing fetch in comment
mode, `get_single_batch_post_comment_from_reddit` issues exactly `N`
additional comment-fetch requests (one per post, whatever each returns), and
emits one record `[post name, post title, comment body]` per returned comment
item whose data carries a `body` field, skipping items without one,
preserving response order. -/
theorem comment_batch_fanout (self : RedditLoader) (subreddit sort_by : String)
    (limit : Nat) (before : Option String) (res : Listing)
    (comments : String → List CommentItem) :
    (get_single_batch_post_comment_from_reddit self subreddit sort_by limit before
        res comments).1.2 =
      Request.listing before :: res.children.map (fun p => Request.commentTree p.id) ∧
    (get_single_batch_post_comment_from_reddit self subreddit sort_by limit before
        res comments).1.1 =
      res.children.flatMap (fun p => (comments p.id).filterMap
        (fun c => c.body?.map (fun b => (⟨p.name, p.title, b⟩ : Rec)))) := by
  constructor <;> simp [get_single_batch_post_comment_from_reddit, commentLoop_eq]

/-- C5: for every token-exchange response lacking the `access_token` field,
construction raises the authentication error before any listing fetch is
issued (the request trace is the token POST alone — zero listing fetches). -/
theorem init_auth_error (config tokenRes : List (String × String)) (meStatus : Nat)
    (h : tokenRes.lookup "access_token" = none) :
    (init config tokenRes meStatus).1 = Except.error "Invalid credentials" ∧
    (init config tokenRes meStatus).2.1 = [Request.tokenPost] ∧
    ∀ c, Request.listing c ∉ (init config tokenRes meStatus).2.1 := by
  have hg : get_token tokenRes = Except.error "Invalid credentials" := by
    simp [get_token, h]
  refine ⟨?_, ?_, ?_⟩ <;> simp [init, hg]

/-- Witness for C5: a concrete token response without `access_token`. -/
theorem init_auth_error_witness :
    (init [] [("error", "invalid_grant")] 200).1 = Except.error "Invalid credentials" ∧
    (init [] [("error", "invalid_grant")] 200).2.1 = [Request.tokenPost] ∧
    ∀ c, Request.listing c ∉ (init [] [("error", "invalid_grant")] 200).2.1 :=
  init_auth_error [] [("error", "invalid_grant")] 200 (by decide)

/-- C6: `make_dataframe` with mode `post` returns exactly the columns
(name, title, text), with mode `comment` exactly (name, title, comment), and
for every other mode it fails with the invalid-mode error, producing no
partial output. -/
theorem make_dataframe_modes (data : List Rec) (type : String) :
    make_dataframe "post" data = Except.ok ⟨["name", "title", "text"], data⟩ ∧
    make_dataframe "comment" data = Except.ok ⟨["name", "title", "comment"], data⟩ ∧
    (type ≠ "post" → type ≠ "comment" →
      make_dataframe type data = Except.error "Invalid type") := by
  refine ⟨rfl, rfl, fun h1 h2 => ?_⟩
  simp [make_dataframe, h1, h2]

/-- Witness for C6 at mode `"csv"` and empty records. -/
theorem make_dataframe_modes_witness :
    make_dataframe "post" [] = Except.ok ⟨["name", "title", "text"], []⟩ ∧
    make_dataframe "comment" [] = Except.ok ⟨["name", "title", "comment"], []⟩ ∧
    make_dataframe "csv" [] = Except.error "Invalid type" :=
  ⟨(make_dataframe_modes [] "csv").1, (make_dataframe_modes [] "csv").2.1,
    (make_dataframe_modes [] "csv").2.2 (by decide) (by decide)⟩

/-- C7: two runs of `get_all_data` differing only in the verbose flag (same
mode, topic, sort, loader state, and fetch responses) return identical tables
and cursor traces and leave the same state: verbose affects the log only. -/
theorem verbose_no_effect (self : RedditLoader) (type subreddit sort_by : String)
    (oracle : List FetchResult) :
    Except.map (fun x => (x.1, x.2.1))
        (get_all_data self type subreddit sort_by true oracle).1 =
      Except.map (fun x => (x.1, x.2.1))
        (get_all_data self type subreddit sort_by false oracle).1 ∧
    (get_all_data self type subreddit sort_by true oracle).2 =
      (get_all_data self type subreddit sort_by false oracle).2 := by
  have hrun : ∀ t : String,
      Except.map (fun x => (x.1, x.2.1)) (runCrawl self t true oracle).1 =
        Except.map (fun x => (x.1, x.2.1)) (runCrawl self t false oracle).1 ∧
      (runCrawl self t true oracle).2 = (runCrawl self t false oracle).2 := by
    intro t
    have hd : ∀ v : Bool,
        (crawlLoop self v 0 oracle [] none 0).data = expectedRecords oracle :=
      fun v => by simpa using crawlLoop_data_eq oracle self v 0 [] none
    have hc : ∀ v : Bool,
        (crawlLoop self v 0 oracle [] none 0).cursors = specCursors oracle none :=
      fun v => by simpa using crawlLoop_cursors_eq oracle self v 0 [] none
    have hs : ∀ v : Bool, (crawlLoop self v 0 oracle [] none 0).self = self :=
      fun v => crawlLoop_self_eq oracle self v 0 [] none 0
    simp only [runCrawl, hd, hc, hs]
    cases make_dataframe t (expectedRecords oracle) <;> simp [Except.map]
  by_cases h1 : type = "post"
  · subst h1
    simpa [get_all_data] using hrun "post"
  · by_cases h2 : type = "comment"
    · subst h2
      simpa [get_all_data] using hrun "comment"
    · simp [get_all_data, h1, h2]

/-- C8: the loader state (the headers dictionary with the User-Agent and
bearer Authorization, and the config) is left unchanged by
`get_single_batch_post_from_reddit`, `get_single_batch_post_comment_from_reddit`
and `get_all_data`. -/
theorem loader_state_frame (self : RedditLoader) (subreddit sort_by : String)
    (limit : Nat) (before : Option String) (res : Listing)
    (comments : String → List CommentItem) (type topic sorting : String)
    (verbose : Bool) (oracle : List FetchResult) :
    (get_single_batch_post_from_reddit self subreddit sort_by limit before res).2 =
      self ∧
    (get_single_batch_post_comment_from_reddit self subreddit sort_by limit before
        res comments).2 = self ∧
    (get_all_data self type topic sorting verbose oracle).2 = self := by
  refine ⟨rfl, rfl, ?_⟩
  have hr : (runCrawl self type verbose oracle).2 = self := by
    have hs := crawlLoop_self_eq oracle self verbose 0 [] none 0
    simp only [runCrawl]
    split <;> simpa using hs
  by_cases h1 : type = "post"
  · subst h1
    simpa [get_all_data] using hr
  · by_cases h2 : type = "comment"
    · subst h2
      simpa [get_all_data] using hr
    · simp [get_all_data, h1, h2]

/-- C9: `make_dataframe` applied twice to the same mode and records yields
structurally identical tables — it is a pure function of its arguments (in
this embedding it reads no state besides them, mirroring the static method). -/
theorem make_dataframe_pure (type1 type2 : String) (records1 records2 : List Rec)
    (ht : type1 = type2) (hrec : records1 = records2) :
    make_dataframe type1 records1 = make_dataframe type2 records2 := by
  rw [ht, hrec]

/-- Witness for C9 at a concrete mode and record list. -/
theorem make_dataframe_pure_witness :
    make_dataframe "comment" [⟨"a", "t", "c"⟩] =
      make_dataframe "comment" [⟨"a", "t", "c"⟩] :=
  make_dataframe_pure "comment" "comment" [⟨"a", "t", "c"⟩] [⟨"a", "t", "c"⟩] rfl rfl

/-- C10: if the very first fetch returns an empty batch, `get_all_data`
terminates after that single fetch (the cursor trace is `[none]`) and returns
an empty table without raising, even though `before = data[-1][0]` indexes the
empty accumulator (the `IndexError` is caught by the loop's handler). -/
theorem get_all_data_empty_first_fetch (self : RedditLoader)
    (type subreddit sort_by : String) (verbose : Bool) (rest : List FetchResult)
    (h : type = "post" ∨ type = "comment") :
    ∃ df log,
      (get_all_data self type subreddit sort_by verbose
          (FetchResult.ok [] :: rest)).1 = Except.ok (df, [none], log) ∧
      df.rows = [] := by
  have hcur : specCursors (FetchResult.ok [] :: rest) none = [none] := by
    simp [specCursors]
  have hrec : expectedRecords (FetchResult.ok [] :: rest) = [] := by
    simp [expectedRecords]
  rw [get_all_data_valid_eq self type subreddit sort_by verbose
    (FetchResult.ok [] :: rest) h]
  rcases h with h | h <;> subst h
  · obtain ⟨log, h1, _⟩ := runCrawl_spec self "post" verbose
      (FetchResult.ok [] :: rest) ["name", "title", "text"] (fun d => rfl)
    rw [hcur, hrec] at h1
    exact ⟨_, log, h1, rfl⟩
  · obtain ⟨log, h1, _⟩ := runCrawl_spec self "comment" verbose
      (FetchResult.ok [] :: rest) ["name", "title", "comment"] (fun d => rfl)
    rw [hcur, hrec] at h1
    exact ⟨_, log, h1, rfl⟩

/-- Witness for C10: the crawl whose first response is an empty page. -/
theorem get_all_data_empty_first_fetch_witness :
    ∃ df log,
      (get_all_data ⟨[], ⟨"MyBot/0.0.1", "bearer t"⟩⟩ "comment" "askreddit"
          "controversial" true (FetchResult.ok [] :: [FetchResult.err])).1 =
        Except.ok (df, [none], log) ∧
      df.rows = [] :=
  get_all_data_empty_first_fetch ⟨[], ⟨"MyBot/0.0.1", "bearer t"⟩⟩ "comment"
    "askreddit" "controversial" true [FetchResult.err] (Or.inr rfl)

end SadGPT
